import Mathlib

/-!
Shallow embedding of the core numeric pipeline of the
Counterfactual-Africa-CMIP6 repository, together with theorems settling the
spec's claims about it.

Sources embedded (field by field, from the Python code):
  * src/climate_processor.py  — ClimateDataProcessor.load_cmip6_data,
    ClimateDataProcessor.calculate_climate_anomalies
  * src/scenario_generator.py — ScenarioGenerator.generate_agricultural_scenarios
    and its helpers
  * src/impact_assessor.py    — ImpactAssessor.calculate_impacts,
    ImpactAssessor.assess_vulnerability

Modelling conventions:
  * all floating-point quantities are modelled as rationals (ℚ);
  * numpy's seeded Gaussian generator is modelled by an abstract stream
    `stream : ℕ → ℕ → ℚ` giving the i-th unit-normal draw for a given seed;
    `np.random.normal(0, sigma)` at draw position i is `sigma * stream seed i`.
    `np.random.seed(42)` resets the global state to seed 42, position 0,
    which is the `reseed` function below;
  * pandas NaN (e.g. the mean of an empty selection) is modelled as `none`
    in an `Option ℚ` field; arithmetic on NaN propagates via `Option.map`;
  * a pandas exception (the `ValueError` of `pd.concat([])`) is modelled as
    `Except.error` with the exception's message.
-/

namespace CMIP6

/-- The four SSP scenario identifiers: a closed enumeration, matching the four
fixed dictionary keys used throughout the Python code. -/
inductive SSP where
  | ssp126
  | ssp245
  | ssp370
  | ssp585
deriving DecidableEq, Repr

/-- The scenario string attached to every record (the dictionary key). -/
def SSP.id : SSP → String
  | .ssp126 => "SSP1-2.6"
  | .ssp245 => "SSP2-4.5"
  | .ssp370 => "SSP3-7.0"
  | .ssp585 => "SSP5-8.5"

/-- Radiative forcing from ClimateDataProcessor.ssp_definitions. -/
def forcing : SSP → ℚ
  | .ssp126 => 2.6
  | .ssp245 => 4.5
  | .ssp370 => 7.0
  | .ssp585 => 8.5

/-- The warming_rates table inside load_cmip6_data (degrees C / year). -/
def warming_rate : SSP → ℚ
  | .ssp126 => 0.01
  | .ssp245 => 0.02
  | .ssp370 => 0.03
  | .ssp585 => 0.04

/-- The precip_trends table inside load_cmip6_data (mm / year). -/
def precip_trend : SSP → ℚ
  | .ssp126 => -0.5
  | .ssp245 => -1.0
  | .ssp370 => -2.0
  | .ssp585 => -3.0

/-- The tech_growth entry of the per-SSP agricultural assumptions table
(ScenarioGenerator._get_agricultural_assumptions). -/
def tech_growth : SSP → ℚ
  | .ssp126 => 0.02
  | .ssp245 => 0.015
  | .ssp370 => 0.008
  | .ssp585 => 0.025

/-- State of numpy's global random generator: current seed and position in
that seed's draw stream. -/
structure RNGState where
  seed : ℕ
  pos : ℕ
deriving DecidableEq, Repr

/-- Model of np.random.seed(42): the previous state is discarded and the
stream restarts at position 0 of seed 42. -/
def reseed (_ : RNGState) : RNGState := ⟨42, 0⟩

/-- One row of the DataFrame returned by load_cmip6_data. -/
structure ClimateRecord where
  year : ℕ
  temperature : ℚ
  precipitation : ℚ
  scenario : String
  forcing : ℚ
deriving DecidableEq, Repr

/-- Temperature of year 2020 + i: base 25.0 plus the SSP warming trend plus
Gaussian noise with standard deviation 0.5 (draw positions 0..80 of the
freshly seeded stream). -/
def tempAt (stream : ℕ → ℕ → ℚ) (seed : ℕ) (ssp : SSP) (i : ℕ) : ℚ :=
  25.0 + warming_rate ssp * i + 0.5 * stream seed i

/-- Pre-floor precipitation of year 2020 + i: base 800 plus the SSP trend plus
Gaussian noise with standard deviation 50 (the second vectorized draw,
positions 81..161 of the same stream). -/
def precipPreAt (stream : ℕ → ℕ → ℚ) (seed : ℕ) (ssp : SSP) (i : ℕ) : ℚ :=
  800 + precip_trend ssp * i + 50 * stream seed (81 + i)

/-- Row i (year 2020 + i) of the synthetic climate DataFrame; precipitation is
floored at 200 via np.maximum. -/
def climateRecordAt (stream : ℕ → ℕ → ℚ) (seed : ℕ) (ssp : SSP) (i : ℕ) :
    ClimateRecord :=
  { year := 2020 + i
    temperature := tempAt stream seed ssp i
    precipitation := max 200 (precipPreAt stream seed ssp i)
    scenario := ssp.id
    forcing := forcing ssp }

/-- ClimateDataProcessor.load_cmip6_data: reseeds the global generator with the
fixed seed 42, then builds one record per year of np.arange(2020, 2101)
(81 years), consuming 162 Gaussian draws.  Returns the rows and the generator
state left behind. -/
def load_cmip6_data (stream : ℕ → ℕ → ℚ) (st : RNGState) (ssp : SSP) :
    List ClimateRecord × RNGState :=
  let s := reseed st
  ((List.range 81).map (climateRecordAt stream s.seed ssp),
    ⟨s.seed, s.pos + 162⟩)

/-- A climate row after calculate_climate_anomalies: the anomaly columns are
Option ℚ, with `none` standing for pandas NaN. -/
structure AnomRecord where
  year : ℕ
  temperature : ℚ
  precipitation : ℚ
  scenario : String
  forcing : ℚ
  temp_anomaly : Option ℚ
  precip_anomaly : Option ℚ
deriving DecidableEq, Repr

/-- Arithmetic mean of a list of rationals (sum divided by length). -/
def qmean (l : List ℚ) : ℚ := l.sum / l.length

/-- ClimateDataProcessor.calculate_climate_anomalies: baseline means are taken
over the rows whose year lies in the (inclusive) baseline window; when that
selection is empty the pandas mean is NaN (`none`) and NaN propagates into
every anomaly value. -/
def calculate_climate_anomalies (records : List ClimateRecord)
    (baseline_period : ℕ × ℕ := (1991, 2020)) : List AnomRecord :=
  let base := records.filter fun r =>
    decide (baseline_period.1 ≤ r.year ∧ r.year ≤ baseline_period.2)
  let baseline_temp : Option ℚ :=
    if base.isEmpty then none else some (qmean (base.map (fun r => r.temperature)))
  let baseline_precip : Option ℚ :=
    if base.isEmpty then none else some (qmean (base.map (fun r => r.precipitation)))
  records.map fun r =>
    { year := r.year
      temperature := r.temperature
      precipitation := r.precipitation
      scenario := r.scenario
      forcing := r.forcing
      temp_anomaly := baseline_temp.map (fun m => r.temperature - m)
      precip_anomaly := baseline_precip.map (fun m => (r.precipitation - m) / m * 100) }

/-- The four regions of ScenarioGenerator.regions, in order. -/
def regions : List String :=
  ["West Africa", "East Africa", "Southern Africa", "Central Africa"]

/-- temp_modifier column of ScenarioGenerator's region_modifiers table.  Only
the four region names above are ever passed (the Python dict would raise
KeyError on any other key). -/
def temp_modifier (region : String) : ℚ :=
  if region = "West Africa" then 1.0
  else if region = "East Africa" then 0.8
  else if region = "Southern Africa" then 1.2
  else if region = "Central Africa" then 0.9
  else 0

/-- precip_modifier column of the same region_modifiers table. -/
def precip_modifier (region : String) : ℚ :=
  if region = "West Africa" then 0.9
  else if region = "East Africa" then 0.7
  else if region = "Southern Africa" then 0.6
  else if region = "Central Africa" then 1.1
  else 0

/-- The temperature response of ScenarioGenerator._calculate_yield_impacts:
np.where(T <= 30, parabola, parabola minus linear penalty).  The parabola term
is evaluated on both branches. -/
def temp_effect (T : ℚ) : ℚ :=
  if T ≤ 30 then 1.0 - 0.05 * (T - 25) ^ 2
  else 1.0 - 0.05 * (T - 25) ^ 2 - 0.1 * (T - 30)

/-- The precipitation response: 1.0 inside the [400, 800] band, otherwise a
linear distance penalty from 600. -/
def precip_effect (P : ℚ) : ℚ :=
  if 400 ≤ P ∧ P ≤ 800 then 1.0
  else 1.0 - 0.001 * |P - 600|

/-- np.clip(x, lo, hi) = minimum(maximum(x, lo), hi). -/
def clip (x lo hi : ℚ) : ℚ := min (max x lo) hi

/-- A row of an agricultural scenario DataFrame after the yield column has
been added. -/
structure ScenarioRecord where
  year : ℕ
  temperature : ℚ
  precipitation : ℚ
  scenario : String
  forcing : ℚ
  temp_anomaly : Option ℚ
  precip_anomaly : Option ℚ
  region : String
  crop_type : String
  yld : ℚ
deriving DecidableEq, Repr

/-- A row of the same DataFrame just before _calculate_yield_impacts runs
(region and crop_type set, temperature and precipitation already scaled by the
region modifiers, no yield column yet). -/
structure RegionRecord where
  year : ℕ
  temperature : ℚ
  precipitation : ℚ
  scenario : String
  forcing : ℚ
  temp_anomaly : Option ℚ
  precip_anomaly : Option ℚ
  region : String
  crop_type : String
deriving DecidableEq, Repr

/-- One row of ScenarioGenerator._calculate_yield_impacts: yield is the base
yield 2.5 times the temperature, precipitation and technology factors, clipped
to [0.5, 6.0].  The technology exponent is year - 2020; every row this
function receives in the pipeline has year >= 2020. -/
def calcYieldRecord (g : ℚ) (r : RegionRecord) : ScenarioRecord :=
  { year := r.year
    temperature := r.temperature
    precipitation := r.precipitation
    scenario := r.scenario
    forcing := r.forcing
    temp_anomaly := r.temp_anomaly
    precip_anomaly := r.precip_anomaly
    region := r.region
    crop_type := r.crop_type
    yld := clip
      (2.5 * temp_effect r.temperature * precip_effect r.precipitation *
        (1 + g) ^ (r.year - 2020)) 0.5 6.0 }

/-- ScenarioGenerator._calculate_yield_impacts over a whole DataFrame. -/
def calculate_yield_impacts (g : ℚ) (rows : List RegionRecord) :
    List ScenarioRecord :=
  rows.map (calcYieldRecord g)

/-- ScenarioGenerator._generate_region_scenario: tag with region and crop,
scale temperature and precipitation by the region modifiers, then compute
yields. -/
def generate_region_scenario (climate : List AnomRecord) (g : ℚ)
    (region crop_type : String) : List ScenarioRecord :=
  calculate_yield_impacts g (climate.map fun c =>
    { year := c.year
      temperature := c.temperature * temp_modifier region
      precipitation := c.precipitation * precip_modifier region
      scenario := c.scenario
      forcing := c.forcing
      temp_anomaly := c.temp_anomaly
      precip_anomaly := c.precip_anomaly
      region := region
      crop_type := crop_type })

/-- ScenarioGenerator.generate_agricultural_scenarios: climate data with
anomalies, then one region scenario per region, concatenated in region
order. -/
def generate_agricultural_scenarios (stream : ℕ → ℕ → ℚ) (st : RNGState)
    (ssp : SSP) (crop_type : String := "Maize") : List ScenarioRecord :=
  let climate := calculate_climate_anomalies (load_cmip6_data stream st ssp).1
  let g := tech_growth ssp
  regions.flatMap fun region => generate_region_scenario climate g region crop_type

/-- One row of the comparison DataFrame built by
ImpactAssessor.calculate_impacts (merged columns suffixed _ssp / _baseline,
plus the four derived columns). -/
structure ImpactRecord where
  year : ℕ
  region : String
  scenario : String
  crop_type : String
  yield_ssp : ℚ
  yield_baseline : ℚ
  temperature_ssp : ℚ
  temperature_baseline : ℚ
  precipitation_ssp : ℚ
  precipitation_baseline : ℚ
  yield_impact : ℚ
  yield_impact_pct : ℚ
  temp_change : ℚ
  precip_change : ℚ
deriving DecidableEq, Repr

/-- One merged row: a scenario row paired with the baseline row sharing its
(year, region) key, with the derived deltas. -/
def mergeRow (r b : ScenarioRecord) : ImpactRecord :=
  { year := r.year
    region := r.region
    scenario := r.scenario
    crop_type := r.crop_type
    yield_ssp := r.yld
    yield_baseline := b.yld
    temperature_ssp := r.temperature
    temperature_baseline := b.temperature
    precipitation_ssp := r.precipitation
    precipitation_baseline := b.precipitation
    yield_impact := r.yld - b.yld
    yield_impact_pct := (r.yld - b.yld) / b.yld * 100
    temp_change := r.temperature - b.temperature
    precip_change := r.precipitation - b.precipitation }

/-- Order-preserving deduplication, as pandas Series.unique: the distinct
values in order of first occurrence.  (Structural recursion: keep the head,
deduplicate the tail, drop later copies of the head.) -/
def uniqueFirst {α : Type} [DecidableEq α] : List α → List α
  | [] => []
  | x :: xs => x :: (uniqueFirst xs).filter (fun y => decide (y ≠ x))

/-- ImpactAssessor.calculate_impacts.  For each distinct scenario other than
the baseline, inner-join its rows with the baseline rows on (year, region) and
derive the impact columns; the per-scenario frames are concatenated with
pd.concat, which raises ValueError when it is given no frames at all (that is,
when no non-baseline scenario occurs in the input). -/
def calculate_impacts (df : List ScenarioRecord)
    (baseline_scenario : String := "SSP2-4.5") :
    Except String (List ImpactRecord) :=
  let uniques := uniqueFirst (df.map (fun r => r.scenario))
  let nonBase := uniques.filter (fun s => decide (s ≠ baseline_scenario))
  if nonBase = [] then
    Except.error "No objects to concatenate"
  else
    Except.ok (nonBase.flatMap fun ssp =>
      let ssp_data := df.filter (fun r => decide (r.scenario = ssp))
      let baseline_data := df.filter (fun r => decide (r.scenario = baseline_scenario))
      ssp_data.flatMap fun r =>
        (baseline_data.filter (fun b => decide (b.year = r.year ∧ b.region = r.region))).map
          (mergeRow r))

/-- The pd.cut binning of ImpactAssessor.assess_vulnerability: bins
[-100, -20, -10, -5, 5, 100] with the pandas default of left-open /
right-closed intervals; values outside (-100, 100] get NaN (`none`). -/
def classifyVulnerability (x : ℚ) : Option String :=
  if -100 < x ∧ x ≤ -20 then some "Extreme"
  else if -20 < x ∧ x ≤ -10 then some "High"
  else if -10 < x ∧ x ≤ -5 then some "Medium"
  else if -5 < x ∧ x ≤ 5 then some "Low"
  else if 5 < x ∧ x ≤ 100 then some "Beneficial"
  else none

/-- One row of the vulnerability summary DataFrame. -/
structure VulnerabilitySummary where
  region : String
  scenario : String
  yield_impact_pct : ℚ
  temp_change : ℚ
  precip_change : ℚ
  vulnerability_level : Option String
deriving DecidableEq, Repr

/-- The groupby-aggregate-classify part of assess_vulnerability, applied after
the year filter: group the rows by (region, scenario), average the three
impact columns, and classify the mean yield impact.  Group keys are listed in
first-appearance order; pandas sorts them, but no property below depends on
the order of the summary rows. -/
def groupAndClassify (period_data : List ImpactRecord) :
    List VulnerabilitySummary :=
  let keys := uniqueFirst (period_data.map (fun r => (r.region, r.scenario)))
  keys.map fun k =>
    let grp := period_data.filter
      (fun r => decide (r.region = k.1 ∧ r.scenario = k.2))
    let m := qmean (grp.map (fun r => r.yield_impact_pct))
    { region := k.1
      scenario := k.2
      yield_impact_pct := m
      temp_change := qmean (grp.map (fun r => r.temp_change))
      precip_change := qmean (grp.map (fun r => r.precip_change))
      vulnerability_level := classifyVulnerability m }

/-- ImpactAssessor.assess_vulnerability: filter the impact rows to the
(inclusive) time window — the source default is time_period=(2040, 2060) —
then group, average and classify. -/
def assess_vulnerability (impacts_df : List ImpactRecord)
    (time_period : ℕ × ℕ := (2040, 2060)) : List VulnerabilitySummary :=
  groupAndClassify (impacts_df.filter fun r =>
    decide (time_period.1 ≤ r.year ∧ r.year ≤ time_period.2))

/-- Sample climate row (year 2050), used to exercise
calculate_climate_anomalies on an input that misses the default baseline
window entirely. -/
def sampleClimate2050 : ClimateRecord :=
  { year := 2050, temperature := 26, precipitation := 700
    scenario := "SSP3-7.0", forcing := 7.0 }

/-- Sample scenario row belonging to SSP1-2.6 (so a baseline of SSP2-4.5 is
absent from any input made of such rows). -/
def rowSSP1a : ScenarioRecord :=
  { year := 2050, temperature := 27, precipitation := 500
    scenario := "SSP1-2.6", forcing := 2.6
    temp_anomaly := none, precip_anomaly := none
    region := "West Africa", crop_type := "Maize", yld := 2.0 }

/-- A second SSP1-2.6 sample scenario row. -/
def rowSSP1b : ScenarioRecord :=
  { year := 2051, temperature := 28, precipitation := 480
    scenario := "SSP1-2.6", forcing := 2.6
    temp_anomaly := none, precip_anomaly := none
    region := "East Africa", crop_type := "Maize", yld := 2.2 }

/-- Sample impact row with yield_impact_pct -15 in year 2055 (inside the
window the spec names for vulnerability assessment). -/
def impact2055 : ImpactRecord :=
  { year := 2055, region := "West Africa", scenario := "SSP3-7.0"
    crop_type := "Maize"
    yield_ssp := 2.0, yield_baseline := 2.5
    temperature_ssp := 30, temperature_baseline := 28
    precipitation_ssp := 500, precipitation_baseline := 520
    yield_impact := -0.5, yield_impact_pct := -15
    temp_change := 2, precip_change := -20 }

/-- Sample impact row in year 2065: inside the window [2050, 2070] that the
spec states as the default, outside the source default (2040, 2060). -/
def impact2065 : ImpactRecord :=
  { year := 2065, region := "West Africa", scenario := "SSP3-7.0"
    crop_type := "Maize"
    yield_ssp := 2.0, yield_baseline := 2.5
    temperature_ssp := 30, temperature_baseline := 28
    precipitation_ssp := 500, precipitation_baseline := 520
    yield_impact := -0.5, yield_impact_pct := -15
    temp_change := 2, precip_change := -20 }

/-! Helper lemmas shared by the claim theorems. -/

theorem mem_of_mem_uniqueFirst {α : Type} [DecidableEq α] {l : List α} {x : α}
    (h : x ∈ uniqueFirst l) : x ∈ l := by
  induction l with
  | nil => simp [uniqueFirst] at h
  | cons a as ih =>
    rw [uniqueFirst] at h
    rcases List.mem_cons.mp h with h1 | h2
    · simp [h1]
    · exact List.mem_cons_of_mem _ (ih (List.mem_of_mem_filter h2))

theorem uniqueFirst_ne_nil {α : Type} [DecidableEq α] {l : List α}
    (h : l ≠ []) : uniqueFirst l ≠ [] := by
  cases l with
  | nil => exact absurd rfl h
  | cons a as => rw [uniqueFirst]; exact List.cons_ne_nil _ _

theorem clip_mem (x lo hi : ℚ) (h : lo ≤ hi) :
    lo ≤ clip x lo hi ∧ clip x lo hi ≤ hi :=
  ⟨le_min (le_max_right x lo) h, min_le_right _ _⟩

theorem length_generate (stream : ℕ → ℕ → ℚ) (st : RNGState) (ssp : SSP)
    (crop : String) :
    (generate_agricultural_scenarios stream st ssp crop).length = 324 := by
  simp [generate_agricultural_scenarios, generate_region_scenario,
    calculate_yield_impacts, calculate_climate_anomalies, load_cmip6_data,
    regions]

theorem exists_pre_of_mem_generate {stream : ℕ → ℕ → ℚ} {st : RNGState}
    {ssp : SSP} {crop : String} {r : ScenarioRecord}
    (h : r ∈ generate_agricultural_scenarios stream st ssp crop) :
    ∃ pre : RegionRecord, r = calcYieldRecord (tech_growth ssp) pre := by
  simp only [generate_agricultural_scenarios, generate_region_scenario,
    calculate_yield_impacts, List.mem_flatMap, List.mem_map] at h
  obtain ⟨region, -, pre, -, hpre⟩ := h
  exact ⟨pre, hpre.symm⟩

/-! Claim theorems. -/

/-- C1: for every valid SSP identifier, load_cmip6_data produces the same
output rows no matter the incoming state of the global random generator —
in particular an immediate second call with identical arguments reproduces
the first call's rows field for field — because the generator is reseeded
with the fixed seed 42 at the start of every call. -/
theorem C1_generate_deterministic (stream : ℕ → ℕ → ℚ) (st : RNGState)
    (ssp : SSP) :
    (load_cmip6_data stream (load_cmip6_data stream st ssp).2 ssp).1
      = (load_cmip6_data stream st ssp).1
    ∧ ∀ st1 st2 : RNGState,
        (load_cmip6_data stream st1 ssp).1 = (load_cmip6_data stream st2 ssp).1 :=
  ⟨rfl, fun _ _ => rfl⟩

/-- C3: temp_effect is the downward parabola 1 - 0.05 (T - 25)^2 for
T <= 30 and that same parabola minus the linear penalty 0.1 (T - 30) for
T > 30; its value at 25 is exactly 1, at 30 the parabola branch still applies
(continuity from below), and the penalty applies only strictly above 30. -/
theorem C3_temp_effect_kink :
    (∀ T : ℚ, T ≤ 30 → temp_effect T = 1 - 0.05 * (T - 25) ^ 2)
    ∧ (∀ T : ℚ, 30 < T →
        temp_effect T = 1 - 0.05 * (T - 25) ^ 2 - 0.1 * (T - 30))
    ∧ temp_effect 25 = 1
    ∧ temp_effect 30 = 1 - 0.05 * ((30 : ℚ) - 25) ^ 2 := by
  refine ⟨?_, ?_, ?_, ?_⟩
  · intro T h
    unfold temp_effect
    rw [if_pos h]
    norm_num
  · intro T h
    unfold temp_effect
    rw [if_neg (not_le.mpr h)]
    norm_num
  · norm_num [temp_effect]
  · norm_num [temp_effect]

/-- C3 witness: the two branch hypotheses discharged at the concrete
temperatures 24 and 31. -/
theorem C3_witness :
    temp_effect 24 = 1 - 0.05 * ((24 : ℚ) - 25) ^ 2
    ∧ temp_effect 31 = 1 - 0.05 * ((31 : ℚ) - 25) ^ 2 - 0.1 * ((31 : ℚ) - 30) :=
  ⟨C3_temp_effect_kink.1 24 (by norm_num),
   C3_temp_effect_kink.2.1 31 (by norm_num)⟩

/-- C5 counterexample: load_cmip6_data has no year-range parameter, so a
request for the years 2030..2040 (11 records) cannot be honoured: the rows it
returns always carry the fixed years 2020..2100. -/
theorem C5_counterexample :
    ((load_cmip6_data (fun _ _ => 0) ⟨0, 0⟩ SSP.ssp370).1).map (fun r => r.year)
      ≠ List.range' 2030 11 := by
  intro h
  have hlen := congrArg List.length h
  simp [load_cmip6_data] at hlen

/-- C5 amended: load_cmip6_data takes no year-range parameter; it always
returns exactly one record per year of the fixed range 2020..2100, in
ascending year order (81 records). -/
theorem C5_fixed_generation_range (stream : ℕ → ℕ → ℚ) (st : RNGState)
    (ssp : SSP) :
    ((load_cmip6_data stream st ssp).1).map (fun r => r.year)
      = List.range' 2020 81 := by
  show ((List.range 81).map (climateRecordAt stream 42 ssp)).map (fun r => r.year)
      = List.range' 2020 81
  rw [List.map_map, List.range'_eq_map_range]
  rfl

/-- C9 counterexample: an impact row in year 2065 lies inside the window
[2050, 2070] that the claim names as the default, yet a call without an
explicit window discards it (the source default is (2040, 2060)); passing
(2050, 2070) explicitly keeps it. -/
theorem C9_counterexample :
    (2050 ≤ 2065 ∧ 2065 ≤ 2070)
    ∧ assess_vulnerability [impact2065] = []
    ∧ assess_vulnerability [impact2065] (2050, 2070) ≠ [] := by
  refine ⟨by norm_num, rfl, ?_⟩
  decide

/-- C9 amended: a call to assess_vulnerability without an explicit window
filters the impact rows to the inclusive year window [2040, 2060] (the source
default) before grouping and averaging. -/
theorem C9_default_window (impacts : List ImpactRecord) :
    assess_vulnerability impacts
      = groupAndClassify (impacts.filter fun r =>
          decide (2040 ≤ r.year ∧ r.year ≤ 2060)) := rfl

/-- C10: with the fixed per-call seed the Gaussian draws are identical across
scenarios, so for any two SSPs and any year of the generated range the
temperature difference is exactly the warming-rate difference times the years
since 2020, and likewise for pre-floor precipitation with the precipitation
trends. -/
theorem C10_parallel_scenario_trends (stream : ℕ → ℕ → ℚ) (st : RNGState)
    (s1 s2 : SSP) (y : ℕ) (h1 : 2020 ≤ y) (h2 : y ≤ 2100) :
    (climateRecordAt stream 42 s1 (y - 2020)).year = y
    ∧ climateRecordAt stream 42 s1 (y - 2020) ∈ (load_cmip6_data stream st s1).1
    ∧ (climateRecordAt stream 42 s1 (y - 2020)).temperature
        - (climateRecordAt stream 42 s2 (y - 2020)).temperature
        = (warming_rate s1 - warming_rate s2) * ((y : ℚ) - 2020)
    ∧ precipPreAt stream 42 s1 (y - 2020) - precipPreAt stream 42 s2 (y - 2020)
        = (precip_trend s1 - precip_trend s2) * ((y : ℚ) - 2020) := by
  have hiq : ((y - 2020 : ℕ) : ℚ) = (y : ℚ) - 2020 := by
    rw [Nat.cast_sub h1]
    norm_num
  refine ⟨?_, ?_, ?_, ?_⟩
  · show 2020 + (y - 2020) = y
    omega
  · show climateRecordAt stream 42 s1 (y - 2020)
        ∈ (List.range 81).map (climateRecordAt stream 42 s1)
    exact List.mem_map_of_mem _ (List.mem_range.mpr (by omega))
  · show tempAt stream 42 s1 (y - 2020) - tempAt stream 42 s2 (y - 2020) = _
    simp only [tempAt]
    rw [hiq]
    ring
  · simp only [precipPreAt]
    rw [hiq]
    ring

/-- C10 witness: the parallel-trend identity applied at the concrete year 2050
for SSP5-8.5 against SSP1-2.6, with the zero noise stream. -/
theorem C10_witness :
    (climateRecordAt (fun _ _ => 0) 42 SSP.ssp585 (2050 - 2020)).year = 2050
    ∧ climateRecordAt (fun _ _ => 0) 42 SSP.ssp585 (2050 - 2020)
        ∈ (load_cmip6_data (fun _ _ => 0) ⟨0, 0⟩ SSP.ssp585).1
    ∧ (climateRecordAt (fun _ _ => 0) 42 SSP.ssp585 (2050 - 2020)).temperature
        - (climateRecordAt (fun _ _ => 0) 42 SSP.ssp126 (2050 - 2020)).temperature
        = (warming_rate SSP.ssp585 - warming_rate SSP.ssp126) * ((2050 : ℚ) - 2020)
    ∧ precipPreAt (fun _ _ => 0) 42 SSP.ssp585 (2050 - 2020)
        - precipPreAt (fun _ _ => 0) 42 SSP.ssp126 (2050 - 2020)
        = (precip_trend SSP.ssp585 - precip_trend SSP.ssp126) * ((2050 : ℚ) - 2020) :=
  C10_parallel_scenario_trends (fun _ _ => 0) ⟨0, 0⟩ SSP.ssp585 SSP.ssp126 2050
    (by norm_num) (by norm_num)

/-- C2: the agricultural scenario builder emits one row per (region, year)
pair (324 rows), and every row's yield equals the clamped product
clip(2.5 * temp_effect * precip_effect * tech_improvement, 0.5, 6.0) of its
own temperature, precipitation and technology columns, hence always lies in
[0.5, 6.0]. -/
theorem C2_yield_clamp_invariant (stream : ℕ → ℕ → ℚ) (st : RNGState)
    (ssp : SSP) (crop : String) :
    (generate_agricultural_scenarios stream st ssp crop).length = 324
    ∧ ∀ j : Fin (generate_agricultural_scenarios stream st ssp crop).length,
        ((generate_agricultural_scenarios stream st ssp crop).get j).yld
          = clip (2.5
              * temp_effect ((generate_agricultural_scenarios stream st ssp crop).get j).temperature
              * precip_effect ((generate_agricultural_scenarios stream st ssp crop).get j).precipitation
              * (1 + tech_growth ssp)
                  ^ (((generate_agricultural_scenarios stream st ssp crop).get j).year - 2020))
              0.5 6.0
        ∧ 0.5 ≤ ((generate_agricultural_scenarios stream st ssp crop).get j).yld
        ∧ ((generate_agricultural_scenarios stream st ssp crop).get j).yld ≤ 6.0 := by
  refine ⟨length_generate stream st ssp crop, fun j => ?_⟩
  obtain ⟨pre, hpre⟩ := exists_pre_of_mem_generate (List.get_mem _ j.1 j.2)
  rw [hpre]
  exact ⟨rfl, (clip_mem _ _ _ (by norm_num)).1, (clip_mem _ _ _ (by norm_num)).2⟩

/-- C4: the vulnerability level of every summary row is the pd.cut binning of
its mean yield-impact percentage, with left-open right-closed bins
(-100,-20] Extreme, (-20,-10] High, (-10,-5] Medium, (-5,5] Low,
(5,100] Beneficial; a value exactly on a boundary falls in the lower (more
severe) bin, and in particular -15 is High, 0 is Low and 50 is Beneficial. -/
theorem C4_vulnerability_bins :
    (∀ x : ℚ, -100 < x → x ≤ -20 → classifyVulnerability x = some "Extreme")
    ∧ (∀ x : ℚ, -20 < x → x ≤ -10 → classifyVulnerability x = some "High")
    ∧ (∀ x : ℚ, -10 < x → x ≤ -5 → classifyVulnerability x = some "Medium")
    ∧ (∀ x : ℚ, -5 < x → x ≤ 5 → classifyVulnerability x = some "Low")
    ∧ (∀ x : ℚ, 5 < x → x ≤ 100 → classifyVulnerability x = some "Beneficial")
    ∧ (∀ (impacts : List ImpactRecord) (tp : ℕ × ℕ) (s : VulnerabilitySummary),
        s ∈ assess_vulnerability impacts tp →
        s.vulnerability_level = classifyVulnerability s.yield_impact_pct)
    ∧ classifyVulnerability (-20) = some "Extreme"
    ∧ classifyVulnerability (-10) = some "High"
    ∧ classifyVulnerability (-5) = some "Medium"
    ∧ classifyVulnerability 5 = some "Low"
    ∧ classifyVulnerability (-15) = some "High"
    ∧ classifyVulnerability 0 = some "Low"
    ∧ classifyVulnerability 50 = some "Beneficial" := by
  refine ⟨?_, ?_, ?_, ?_, ?_, ?_, by decide, by decide, by decide, by decide,
    by decide, by decide, by decide⟩
  · intro x h1 h2
    unfold classifyVulnerability
    rw [if_pos ⟨h1, h2⟩]
  · intro x h1 h2
    have hn : ¬(-100 < x ∧ x ≤ -20) := by
      rintro ⟨-, hb⟩
      linarith
    unfold classifyVulnerability
    rw [if_neg hn, if_pos ⟨h1, h2⟩]
  · intro x h1 h2
    have hn1 : ¬(-100 < x ∧ x ≤ -20) := by
      rintro ⟨-, hb⟩
      linarith
    have hn2 : ¬(-20 < x ∧ x ≤ -10) := by
      rintro ⟨-, hb⟩
      linarith
    unfold classifyVulnerability
    rw [if_neg hn1, if_neg hn2, if_pos ⟨h1, h2⟩]
  · intro x h1 h2
    have hn1 : ¬(-100 < x ∧ x ≤ -20) := by
      rintro ⟨-, hb⟩
      linarith
    have hn2 : ¬(-20 < x ∧ x ≤ -10) := by
      rintro ⟨-, hb⟩
      linarith
    have hn3 : ¬(-10 < x ∧ x ≤ -5) := by
      rintro ⟨-, hb⟩
      linarith
    unfold classifyVulnerability
    rw [if_neg hn1, if_neg hn2, if_neg hn3, if_pos ⟨h1, h2⟩]
  · intro x h1 h2
    have hn1 : ¬(-100 < x ∧ x ≤ -20) := by
      rintro ⟨-, hb⟩
      linarith
    have hn2 : ¬(-20 < x ∧ x ≤ -10) := by
      rintro ⟨-, hb⟩
      linarith
    have hn3 : ¬(-10 < x ∧ x ≤ -5) := by
      rintro ⟨-, hb⟩
      linarith
    have hn4 : ¬(-5 < x ∧ x ≤ 5) := by
      rintro ⟨-, hb⟩
      linarith
    unfold classifyVulnerability
    rw [if_neg hn1, if_neg hn2, if_neg hn3, if_neg hn4, if_pos ⟨h1, h2⟩]
  · intro impacts tp s hs
    simp only [assess_vulnerability, groupAndClassify, List.mem_map] at hs
    obtain ⟨k, -, rfl⟩ := hs
    rfl

/-- C4 witness: the High bin applied at the concrete mean -15, and the
summary-level conjunct applied to a concrete one-row impact set whose group
mean is -15. -/
theorem C4_witness :
    (classifyVulnerability (-15) = some "High")
    ∧ (VulnerabilitySummary.mk "West Africa" "SSP3-7.0" (-15) 2 (-20)
        (some "High")).vulnerability_level
        = classifyVulnerability (-15) := by
  constructor
  · exact C4_vulnerability_bins.2.1 (-15) (by norm_num) (by norm_num)
  · refine C4_vulnerability_bins.2.2.2.2.2.1 [impact2055] (2050, 2070) _ ?_
    have h : assess_vulnerability [impact2055] (2050, 2070)
        = [VulnerabilitySummary.mk "West Africa" "SSP3-7.0" (-15) 2 (-20)
            (some "High")] := by
      simp [assess_vulnerability, groupAndClassify, uniqueFirst, qmean,
        classifyVulnerability, impact2055]
      norm_num
    rw [h]
    exact List.mem_singleton.mpr rfl

/-- C6 counterexample: with the baseline SSP2-4.5 absent from the input, the
code does not fail with a NoBaselineData error — the inner joins are simply
empty and the call returns an empty ok result. -/
theorem C6_counterexample :
    calculate_impacts [rowSSP1a] "SSP2-4.5" = Except.ok [] := rfl

/-- C6 amended: when the baseline identifier is absent (and the input is
nonempty) calculate_impacts returns an empty ok result via empty inner joins
rather than failing with NoBaselineData; for every other distinct scenario it
inner-joins that scenario's rows with the baseline rows on (year, region), so
no row of the baseline scenario ever appears in the output. -/
theorem C6_join_excludes_baseline :
    (∀ (df : List ScenarioRecord) (b : String) (out : List ImpactRecord),
        calculate_impacts df b = Except.ok out →
        ∀ r ∈ out, r.scenario ≠ b)
    ∧ (∀ (df : List ScenarioRecord) (b : String),
        df ≠ [] → (∀ r ∈ df, r.scenario ≠ b) →
        calculate_impacts df b = Except.ok []) := by
  constructor
  · intro df b out hok r hr
    simp only [calculate_impacts] at hok
    split at hok
    · exact absurd hok (by simp)
    · obtain rfl : _ = out := (Except.ok.injEq _ _).mp hok
      simp only [List.mem_flatMap, List.mem_map, List.mem_filter,
        decide_eq_true_iff] at hr
      obtain ⟨ssp, ⟨-, hssp⟩, rr, ⟨-, hrr⟩, bb, -, rfl⟩ := hr
      show rr.scenario ≠ b
      rw [hrr]
      exact hssp
  · intro df b hne hall
    have hbase : df.filter (fun r => decide (r.scenario = b)) = [] :=
      List.filter_eq_nil_iff.mpr (fun r hr => by simp [hall r hr])
    have hnb : (uniqueFirst (df.map (fun r => r.scenario))).filter
        (fun s => decide (s ≠ b)) ≠ [] := by
      intro h0
      have hmapne : df.map (fun r => r.scenario) ≠ [] := by
        intro hm
        exact hne (List.map_eq_nil_iff.mp hm)
      obtain ⟨x, hx⟩ :=
        List.exists_mem_of_ne_nil _ (uniqueFirst_ne_nil hmapne)
      have hxb : x = b := by
        have := List.filter_eq_nil_iff.mp h0 x hx
        simpa using this
      obtain ⟨r, hr, hrs⟩ := List.mem_map.mp (mem_of_mem_uniqueFirst hx)
      exact hall r hr (hrs.trans hxb)
    simp only [calculate_impacts]
    rw [if_neg hnb]
    congr 1
    apply List.flatMap_eq_nil_iff.mpr
    intro s hs
    rw [hbase]
    simp

/-- C6 witness: the amended no-error behaviour applied to a concrete
two-row input that contains only SSP1-2.6. -/
theorem C6_witness :
    calculate_impacts [rowSSP1a, rowSSP1b] "SSP2-4.5" = Except.ok [] :=
  C6_join_excludes_baseline.2 [rowSSP1a, rowSSP1b] "SSP2-4.5" (by simp)
    (by decide)

/-- C7 counterexample: with a single record in year 2050 and the default
baseline window (1991, 2020) the overlap is empty, yet
calculate_climate_anomalies does not fail — it returns the record with NaN
(none) anomaly fields. -/
theorem C7_counterexample :
    (calculate_climate_anomalies [sampleClimate2050] (1991, 2020)).map
      (fun s => (s.temp_anomaly, s.precip_anomaly)) = [(none, none)] := rfl

/-- C7 amended: when no input record's year falls inside the baseline window,
calculate_climate_anomalies raises no error: it returns one output row per
input row, with both anomaly fields NaN (modelled as none). -/
theorem C7_nan_anomalies (records : List ClimateRecord) (bp : ℕ × ℕ)
    (h : ∀ r ∈ records, ¬(bp.1 ≤ r.year ∧ r.year ≤ bp.2)) :
    (calculate_climate_anomalies records bp).length = records.length
    ∧ ∀ s ∈ calculate_climate_anomalies records bp,
        s.temp_anomaly = none ∧ s.precip_anomaly = none := by
  have hbase : records.filter
      (fun r => decide (bp.1 ≤ r.year ∧ r.year ≤ bp.2)) = [] :=
    List.filter_eq_nil_iff.mpr (fun r hr => by simp [h r hr])
  constructor
  · simp [calculate_climate_anomalies]
  · intro s hs
    simp only [calculate_climate_anomalies, hbase, List.isEmpty_nil,
      if_pos, List.mem_map] at hs
    obtain ⟨r, -, rfl⟩ := hs
    exact ⟨rfl, rfl⟩

/-- C7 witness: the NaN-anomaly behaviour applied to the concrete single
record in year 2050 with the default baseline window. -/
theorem C7_witness :
    (calculate_climate_anomalies [sampleClimate2050] (1991, 2020)).length = 1
    ∧ ∀ s ∈ calculate_climate_anomalies [sampleClimate2050] (1991, 2020),
        s.temp_anomaly = none ∧ s.precip_anomaly = none :=
  C7_nan_anomalies [sampleClimate2050] (1991, 2020) (by decide)

/-- C8 counterexample: on an empty input, calculate_impacts does not return
an empty ok result — pd.concat receives no frames and raises. -/
theorem C8_counterexample :
    calculate_impacts ([] : List ScenarioRecord) "SSP2-4.5" ≠ Except.ok [] := by
  intro h
  rw [show calculate_impacts ([] : List ScenarioRecord) "SSP2-4.5"
      = Except.error "No objects to concatenate" from rfl] at h
  exact Except.noConfusion h

/-- C8 amended: on an empty input, or on any input whose rows all carry the
baseline scenario, calculate_impacts raises the pd.concat ValueError (no
objects to concatenate) instead of returning an empty sequence. -/
theorem C8_error_on_empty (b : String) (df : List ScenarioRecord)
    (h : ∀ r ∈ df, r.scenario = b) :
    calculate_impacts df b = Except.error "No objects to concatenate" := by
  have hnb : (uniqueFirst (df.map (fun r => r.scenario))).filter
      (fun s => decide (s ≠ b)) = [] := by
    apply List.filter_eq_nil_iff.mpr
    intro x hx
    obtain ⟨r, hr, hrs⟩ := List.mem_map.mp (mem_of_mem_uniqueFirst hx)
    simp [hrs ▸ h r hr]
  simp only [calculate_impacts]
  rw [if_pos hnb]

/-- C8 witness: the error behaviour applied to the concrete empty input. -/
theorem C8_witness :
    calculate_impacts ([] : List ScenarioRecord) "SSP2-4.5"
      = Except.error "No objects to concatenate" :=
  C8_error_on_empty "SSP2-4.5" [] (by simp)

end CMIP6
